import Mathlib

/-!
Verification of the social_mcp content pipeline against its specification.

The development shallowly embeds the pipeline pieces the claims depend on:

* the triplicated `is_valid_url` helper
  (`src/mcp_client/workflow_graph.py`, `src/mcp_server/tools/extract_content.py`,
   `src/common/google_sheets.py`);
* the workflow stage functions of `WorkflowGraph`
  (`src/mcp_client/workflow_graph.py`): `batch_retrieval`,
  `extract_content_node`, `generate_tweets_node`, `store_tweets_node`,
  `post_to_twitter_node`, `post_to_bsky_node`, `post_to_telegram_node`,
  `engage_posts_node`, `schedule_followups_node`, `completion_node`, and the
  conditional-edge routing of `build_workflow_graph`;
* `GoogleSheetsClient.update_row` (`src/common/google_sheets.py`);
* `retry_with_backoff` (`src/common/retry_utils.py`);
* the selector cascade of `ExtractContent.extract`
  (`src/mcp_server/tools/extract_content.py`).

Modelling conventions:

* Spreadsheet cell mutations are collected as explicit lists of `CellWrite`
  values instead of performing I/O; everything else is state passing.
* External collaborators (the browser, the LLM, `json.loads`, the platform
  posting APIs) enter as explicit function/oracle parameters; the Python
  standard-library `urllib.parse.urlparse` is modelled by a small concrete
  parser covering scheme/netloc extraction.
* Python exceptions that a stage function lets escape are represented with
  `Except String`; exception payloads are descriptive model strings.
* Timestamps (`self.now()` / `datetime.utcnow().isoformat()`) are threaded as
  an explicit `now : String` argument.
* Cell writes performed through a `col_indices` lookup built from the header
  row are recorded by column name (`Col.named`); the source resolves such a
  name to its 1-based position in the header row, which is injective for
  duplicate-free headers.  Writes with a literal numeric column
  (`update_cell(row, 3, ...)`) and writes made through
  `GoogleSheetsClient.update_row` (which computes `headers.index(...) + 1`
  itself) are recorded with numeric columns (`Col.num`).
-/

/-- A Python value as it can occur in a spreadsheet cell / dict field.
All non-string values behave alike in the embedded validation code (they fail
`isinstance(url, str)` checks); `intVal` keeps truthiness distinctions and
`noneVal` models Python `None` or a missing key. -/
inductive PyVal where
  | str (s : String)
  | intVal (n : Int)
  | noneVal
deriving DecidableEq, Repr

/-- Python truthiness of a `PyVal` (`if not url: ...`). -/
def PyVal.truthy : PyVal → Bool
  | .str s => s ≠ ""
  | .intVal n => n ≠ 0
  | .noneVal => false

/-- Python `str(v)` as used in f-string interpolation. -/
def PyVal.pyStr : PyVal → String
  | .str s => s
  | .intVal n => toString n
  | .noneVal => "None"

/-- Python `str.lower()` (ASCII case folding suffices for the inputs here). -/
def pyLower (s : String) : String := String.mk (s.toList.map Char.toLower)

/-- Python `str.strip()`: remove leading and trailing whitespace. -/
def pyStrip (s : String) : String :=
  String.mk (((s.toList.dropWhile Char.isWhitespace).reverse.dropWhile
    Char.isWhitespace).reverse)

/-- Python `s.startswith(p)`. -/
def pyStartsWith (s p : String) : Bool := p.toList.isPrefixOf s.toList

/-- Python `s.endswith(p)`. -/
def pyEndsWith (s p : String) : Bool := p.toList.isSuffixOf s.toList

/-- Python `s[n:]`. -/
def pyDrop (s : String) (n : Nat) : String := String.mk (s.toList.drop n)

/-- Python `s[:-n]`. -/
def pyDropRight (s : String) (n : Nat) : String :=
  String.mk (s.toList.take (s.toList.length - n))

/-- Python truthiness of an optional string field
(`state.get('text')` is falsy when the key is absent, `None`, or `""`). -/
def truthyOpt : Option String → Bool
  | none => false
  | some s => s ≠ ""

/-- The status vocabulary rejected by every `is_valid_url` copy. -/
def statusKeywords : List String := ["pending", "in_progress", "complete", "error"]

/-- Characters admissible in a URL scheme after the leading letter
(RFC 3986 as implemented by `urllib.parse`). -/
def isSchemeChar (c : Char) : Bool := c.isAlphanum || c = '+' || c = '-' || c = '.'

/-- Model of `urllib.parse.urlparse`, restricted to the two components the
code consults: it returns `(scheme, netloc)`.  A scheme is the part before the
first `:` when it is a letter followed by scheme characters (lower-cased by
the parser); the netloc is the run after a leading `//` of the remainder, up
to the next `/`, `?` or `#`.  The stdlib function does not raise on ordinary
strings, so the model is total. -/
def urlparse (s : String) : String × String :=
  let cs := s.toList
  let pre := cs.takeWhile (fun c => c ≠ ':')
  let schemeOk := pre.length < cs.length ∧
    pre ≠ [] ∧ (pre.headD 'a').isAlpha ∧ pre.all isSchemeChar
  let (scheme, rest) :=
    if schemeOk then (pre.map Char.toLower, cs.drop (pre.length + 1))
    else ([], cs)
  let netloc :=
    match rest with
    | '/' :: '/' :: tail => tail.takeWhile (fun c => c ≠ '/' ∧ c ≠ '?' ∧ c ≠ '#')
    | _ => []
  (String.mk scheme, String.mk netloc)

/-- Model of Python `int(s)` on strings: optional surrounding whitespace, an
optional sign, then decimal digits; `none` models `ValueError`.  (Underscore
digit separators are not modelled; no claim depends on them.) -/
def pyInt (s : String) : Option Int :=
  let cs := (pyStrip s).toList
  let (sign, digits) : Int × List Char :=
    match cs with
    | '-' :: rest => (-1, rest)
    | '+' :: rest => (1, rest)
    | _ => (1, cs)
  if digits ≠ [] ∧ digits.all Char.isDigit then
    some (sign * (digits.foldl (fun acc d => acc * 10 + (d.toNat - 48)) 0 : Nat))
  else none

/-- The retry-counter read pattern shared by the stage error paths:
`retry_count = row.get(col, '0')` followed by
`int(retry_count) if retry_count else 0` with `ValueError` mapped to 0. -/
def parseRetryCount (o : Option String) : Int :=
  let rc := o.getD "0"
  if rc = "" then 0 else (pyInt rc).getD 0

/-- A work-item row as built by `batch_retrieval` and threaded through the
pipeline (`{'id': row_idx, 'url': url, 'sheet': ...}`); the optional
`retry_count_*` fields model further dict keys read with `.get` (absent in
rows produced by `batch_retrieval`). -/
structure Row where
  id : Nat
  url : PyVal
  sheet : String
  retry_count_content : Option String := none
  retry_count_generate : Option String := none
  retry_count_post_twitter : Option String := none
  retry_count_post_bsky : Option String := none
  retry_count_engagement : Option String := none
  retry_count_followup : Option String := none
deriving DecidableEq, Repr

/-- A generated tweet record
(`{"index": i, "text": ..., "hashtags": [...], "gen_ts": now}`). -/
structure Tweet where
  index : Nat
  text : String
  hashtags : List String
  gen_ts : String
deriving DecidableEq, Repr

/-- The `WorkflowState` dict threaded through the graph.  Absent dict keys
are the default field values (`[]`, `none`, `false`): for every key the code
distinguishes absence from the default value at most through truthiness,
which coincides, except for the `error` key, where `"error" in state`
(key presence) is modelled by `Option.isSome` and `state.get('error')`
(truthiness) by `truthyOpt`; the pipeline only ever stores `str` values under
`error`. -/
structure State where
  rows : List Row := []
  current_row : Option Row := none
  text : Option String := none
  tweets : List Tweet := []
  error : Option String := none
  engagement_only : Bool := false
  posted : Bool := false
  posted_to_bsky : Bool := false
  posted_to_telegram : Bool := false
  stored : Bool := false
  engaged : Bool := false
  skipped : Bool := false
  reason : Option String := none
  followups_scheduled : Bool := false
  endOfRun : Bool := false
deriving DecidableEq, Repr

/-- A spreadsheet column reference: a literal 1-based position, or a header
name later resolved through the header row. -/
inductive Col where
  | num (n : Nat)
  | named (s : String)
deriving DecidableEq, Repr

/-- One `update_cell` call: target worksheet, 1-based row, column, value. -/
structure CellWrite where
  sheet : String
  row : Nat
  col : Col
  value : String
deriving DecidableEq, Repr

/-- A record of `Sheet1` as returned by `get_all_records` (the two fields the
code reads; a missing `status` cell reads as `""`, which is exactly how the
code treats it). -/
structure Rec1 where
  url : PyVal := .noneVal
  status : String := ""
deriving DecidableEq, Repr

/-- A record of `Sheet2` as returned by `get_all_records`. -/
structure Rec2 where
  tele_urls : PyVal := .noneVal
  status : String := ""
deriving DecidableEq, Repr

/-- The module-level `COLUMNS` list of `src/common/google_sheets.py`. -/
def COLUMNS : List String :=
  ["id", "url", "status", "Medium", "processing_ts", "content_ts", "retry_count_content",
   "generate_ts", "retry_count_generate", "tweets", "store_ts", "twitter_result",
   "retry_count_post_twitter", "bsky_result", "retry_count_post_bsky", "engage_ts",
   "schedule_ts", "retry_count_schedule", "last_update_ts"]

namespace GoogleSheetsClient

/-- `GoogleSheetsClient.is_valid_url` (`src/common/google_sheets.py:30-45`):
rejects non-strings, the four status keywords in any case, and strings whose
parse lacks a scheme or a netloc (`all([result.scheme, result.netloc])`). -/
def is_valid_url : PyVal → Bool
  | .str s =>
    if pyLower s ∈ statusKeywords then false
    else
      let result := urlparse s
      result.1 ≠ "" && result.2 ≠ ""
  | _ => false

/-- `GoogleSheetsClient.update_row` (`src/common/google_sheets.py:92-121`):
for each update whose column name occurs in the header row, writes the value
at `(row_index + 1, headers.index(col) + 1)`; unknown columns are only
logged.  The function itself performs no I/O here, it returns the writes. -/
def update_row (headers : List String) (sheet_name : String) (row_index : Nat)
    (updates : List (String × String)) : List CellWrite :=
  updates.filterMap fun u =>
    if u.1 ∈ headers then
      some ⟨sheet_name, row_index + 1, Col.num (headers.indexOf u.1 + 1), u.2⟩
    else none

end GoogleSheetsClient

namespace ExtractContentTool

/-- `ExtractContent.is_valid_url` (`src/mcp_server/tools/extract_content.py:55-70`);
the body is textually identical to the `GoogleSheetsClient` copy. -/
def is_valid_url : PyVal → Bool
  | .str s =>
    if pyLower s ∈ statusKeywords then false
    else
      let result := urlparse s
      result.1 ≠ "" && result.2 ≠ ""
  | _ => false

end ExtractContentTool

namespace WorkflowGraph

/-- `WorkflowGraph.is_valid_url` (`src/mcp_client/workflow_graph.py:62-77`);
the body is textually identical to the other two copies. -/
def is_valid_url : PyVal → Bool
  | .str s =>
    if pyLower s ∈ statusKeywords then false
    else
      let result := urlparse s
      result.1 ≠ "" && result.2 ≠ ""
  | _ => false

/-- Indices (sheet rows, `enumerate(records1, start=2)`) of `Sheet1` records
whose status is empty or `pending` case-insensitively
(`not row.get('status') or row.get('status').lower() == 'pending'`). -/
def pendingIdxs1 (recs : List Rec1) : List Nat :=
  recs.enum.filterMap fun p =>
    if p.2.status = "" ∨ pyLower p.2.status = "pending" then some (p.1 + 2) else none

/-- Indices of `Sheet2` records whose status is exactly `pending`
case-insensitively (`row.get('status', '').lower() == 'pending'`). -/
def pendingIdxs2 (recs : List Rec2) : List Nat :=
  recs.enum.filterMap fun p =>
    if pyLower p.2.status = "pending" then some (p.1 + 2) else none

/-- The per-row claiming loop of `batch_retrieval`
(`src/mcp_client/workflow_graph.py:105-125` and `148-169`): look the URL cell
up (a `none` lookup models the per-row `except ... continue`), skip falsy
URLs, otherwise mark the row `in_progress` (column 3) with a timestamp
(column 4) and collect it. -/
def claimLoop (lookup : Nat → Option PyVal) (sheetName : String) (now : String) :
    List Nat → List Row × List CellWrite
  | [] => ([], [])
  | idx :: rest =>
    let tail := claimLoop lookup sheetName now rest
    match lookup idx with
    | some url =>
      if url.truthy then
        (⟨idx, url, sheetName, none, none, none, none, none, none⟩ :: tail.1,
         ⟨sheetName, idx, Col.num 3, "in_progress"⟩ ::
           ⟨sheetName, idx, Col.num 4, now⟩ :: tail.2)
      else tail
    | none => tail

/-- `WorkflowGraph.batch_retrieval` (`src/mcp_client/workflow_graph.py:79-180`):
claim up to `M` pending rows from `Sheet1` (URL column `url`), else from
`Sheet2` (URL column `tele_urls`), else return an engagement-only state.
The worksheet handles and `get_all_records` results are the `recs1`/`recs2`
parameters; their laziness/failure modes (the outer `except` returning an
error state) are outside the claims. -/
def batch_retrieval (recs1 : List Rec1) (recs2 : List Rec2) (M : Nat) (now : String)
    (s : State) : State × List CellWrite :=
  let lookup1 := fun idx => (recs1.get? (idx - 2)).map (·.url)
  let claimed1 := claimLoop lookup1 "Sheet1" now ((pendingIdxs1 recs1).take M)
  if claimed1.1 ≠ [] then
    ({s with rows := claimed1.1, engagement_only := false}, claimed1.2)
  else
    let lookup2 := fun idx => (recs2.get? (idx - 2)).map (·.tele_urls)
    let claimed2 := claimLoop lookup2 "Sheet2" now ((pendingIdxs2 recs2).take M)
    if claimed2.1 ≠ [] then
      ({s with rows := claimed2.1, engagement_only := false}, claimed1.2 ++ claimed2.2)
    else
      ({s with rows := [], engagement_only := true}, claimed1.2 ++ claimed2.2)

/-- The `try_extract` closure of `extract_content_node`
(`src/mcp_client/workflow_graph.py:190-196`): raise on an invalid URL, call
the extractor (the `fetch` oracle; `ExtractContent.extract` returns `""` on
every internal failure), raise on empty text. -/
def tryExtract (fetch : PyVal → String) (url : PyVal) : Except String String :=
  if ¬ is_valid_url url then .error ("Invalid URL: " ++ url.pyStr)
  else
    let text := fetch url
    if text = "" then .error "Extraction failed - no content returned"
    else .ok text

/-- `WorkflowGraph.extract_content_node` (`src/mcp_client/workflow_graph.py:182-247`).
`retry_with_backoff(try_extract, max_retries=3)` is entered with a
deterministic `try_extract` for a fixed `fetch`, so its outcome is that of a
single attempt (`retryAux_const` below proves this for the retry model).
Note there is no `state.get('error')` guard: only an empty `rows` skips. -/
def extract_content_node (fetch : PyVal → String) (now : String) (s : State) :
    State × List CellWrite :=
  match s.rows with
  | [] => (s, [])
  | row :: rest =>
    match tryExtract fetch row.url with
    | .ok text =>
      if row.sheet = "Sheet1" then
        ({s with current_row := some row, text := some text, rows := rest},
         [⟨"Sheet1", row.id, Col.named "content_ts", now⟩,
          ⟨"Sheet1", row.id, Col.named "retry_count_content", "0"⟩])
      else
        ({s with current_row := some row, text := some text, rows := rest},
         [⟨"Sheet2", row.id, Col.named "last_update_ts", now⟩])
    | .error e =>
      if row.sheet = "Sheet1" then
        let current_retry := parseRetryCount row.retry_count_content
        ({s with current_row := some row, error := some e, rows := rest},
         [⟨"Sheet1", row.id, Col.named "status", "error"⟩,
          ⟨"Sheet1", row.id, Col.named "retry_count_content", toString (current_retry + 1)⟩,
          ⟨"Sheet1", row.id, Col.named "content_ts", now⟩])
      else
        ({s with current_row := some row, error := some e, rows := rest},
         [⟨"Sheet2", row.id, Col.named "status", "error"⟩,
          ⟨"Sheet2", row.id, Col.named "error", e⟩,
          ⟨"Sheet2", row.id, Col.named "last_update_ts", now⟩])

/-- The word grouping behind Python `str.split()` with no separator: split
the character list on whitespace runs, dropping empty pieces. -/
def groupWords (cs : List Char) : List (List Char) :=
  (cs.foldr
    (fun c acc =>
      if c.isWhitespace then [] :: acc
      else
        match acc with
        | [] => [[c]]
        | w :: ws => (c :: w) :: ws)
    []).filter (· ≠ [])

/-- Python `str.split()` with no separator: whitespace-run splitting. -/
def pyWords (s : String) : List String :=
  (groupWords s.toList).map String.mk

/-- The hashtag-collection loop of `generate_tweets_node`
(`src/mcp_client/workflow_graph.py:294-299` and `312-316`): the words of the
text that start with `#`, with the `#` removed. -/
def extractHashtags (text : String) : List String :=
  (pyWords text).filterMap fun w =>
    if pyStartsWith w "#" then some (pyDrop w 1) else none

/-- The tweet-formatting loop (`enumerate(raw_tweets, 1)`) applied to the
`text` fields of the parsed tweets. -/
def formatTweets (texts : List String) (now : String) : List Tweet :=
  texts.enum.map fun p => ⟨p.1 + 1, p.2, extractHashtags p.2, now⟩

/-- Model of `json.dumps` on a formatted tweet list; the claims never inspect
this value, only that it is what gets stored. -/
def dumpTweets (ts : List Tweet) : String :=
  "[" ++ String.intercalate ", " (ts.map fun t =>
    "\x7b\"index\": " ++ toString t.index ++ ", \"text\": \"" ++ t.text ++
    "\", \"hashtags\": [" ++
    String.intercalate ", " (t.hashtags.map fun h => "\"" ++ h ++ "\"") ++
    "], \"gen_ts\": \"" ++ t.gen_ts ++ "\"\x7d") ++ "]"

/-- An element of a JSON array as consumed by the tweet loop: either the
element has a string under its text key, or accessing/splitting it raises
(a non-dict element, a missing key, a non-string text). -/
inductive JsonElem where
  | textStr (s : String)
  | badElem
deriving DecidableEq, Repr

/-- Outcome of `json.loads` on the stripped response: a decode error, a
non-list value, or an array of elements. -/
inductive JsonParse where
  | decodeError
  | notList
  | arr (elems : List JsonElem)
deriving DecidableEq, Repr

/-- The markdown-fence stripping of `generate_tweets_node`
(`src/mcp_client/workflow_graph.py:277-282`). -/
def stripFence (response : String) : String :=
  let r1 := if pyStartsWith response "```json" then pyDrop response 7 else response
  let r2 := if pyEndsWith r1 "```" then pyDropRight r1 3 else r1
  pyStrip r2

/-- The text field of a well-formed array element. -/
def JsonElem.getText : JsonElem → Option String
  | .textStr s => some s
  | .badElem => none

/-- The cell writes of the `generate_tweets_node` success path
(`src/mcp_client/workflow_graph.py:330-331`). -/
def genWrites (r : Row) (now : String) (tweets : List Tweet) : List CellWrite :=
  [⟨"Sheet1", r.id, Col.named "generate_ts", now⟩,
   ⟨"Sheet1", r.id, Col.named "tweets", dumpTweets tweets⟩]

/-- The `generate_tweets_node` exception path
(`src/mcp_client/workflow_graph.py:334-350`): status `error`, incremented
`retry_count_generate`, timestamp, and the error recorded in the state. -/
def genError (r : Row) (now : String) (s : State) (msg : String) :
    State × List CellWrite :=
  ({s with error := some msg},
   [⟨"Sheet1", r.id, Col.named "status", "error"⟩,
    ⟨"Sheet1", r.id, Col.named "retry_count_generate",
      toString (parseRetryCount r.retry_count_generate + 1)⟩,
    ⟨"Sheet1", r.id, Col.named "generate_ts", now⟩])

/-- `WorkflowGraph.generate_tweets_node` (`src/mcp_client/workflow_graph.py:249-350`).
`llm` is the `self.llm.generate_content` oracle (`Except.error` = the call
raised); `jparse` is the `json.loads` oracle on the stripped response.
`state["current_row"]` raises `KeyError` when the key is absent.  The same
`now` stands for the `datetime.utcnow().isoformat()` taken inside the loop
and the `self.now()` of the cell writes. -/
def generate_tweets_node (llm : Except String String) (jparse : String → JsonParse)
    (now : String) (s : State) : Except String (State × List CellWrite) :=
  if truthyOpt s.error then .ok (s, [])
  else if ¬ truthyOpt s.text then
    .ok ({s with error := some "No text content available for tweet generation"}, [])
  else
    match s.current_row with
    | none => .error "KeyError: current_row"
    | some current_row =>
      if current_row.sheet ≠ "Sheet1" then
        .ok ({s with skipped := true, reason := some "Not a Twitter/Bluesky URL"}, [])
      else
        match llm with
        | .error e => .ok (genError current_row now s ("Error generating tweets: " ++ e))
        | .ok response0 =>
          if response0 = "" then
            .ok (genError current_row now s "Error generating tweets: No response from LLM")
          else
            let response := stripFence response0
            match jparse response with
            | .decodeError =>
              let tweets := formatTweets [response] now
              .ok ({s with tweets := tweets}, genWrites current_row now tweets)
            | .notList =>
              let tweets := formatTweets [response] now
              .ok ({s with tweets := tweets}, genWrites current_row now tweets)
            | .arr elems =>
              if elems.all (·.getText.isSome) then
                let tweets := formatTweets (elems.filterMap (·.getText)) now
                .ok ({s with tweets := tweets}, genWrites current_row now tweets)
              else
                .ok (genError current_row now s "Error generating tweets: KeyError: text")

/-- `WorkflowGraph.store_tweets_node` (`src/mcp_client/workflow_graph.py:352-388`);
the `try` body performs only cell writes, so its exception path is outside
the pure model. -/
def store_tweets_node (now : String) (s : State) : Except String (State × List CellWrite) :=
  if truthyOpt s.error then .ok (s, [])
  else if s.tweets = [] then .ok ({s with error := some "No tweets to store"}, [])
  else
    match s.current_row with
    | none => .error "KeyError: current_row"
    | some current_row =>
      if current_row.sheet ≠ "Sheet1" then
        .ok ({s with skipped := true, reason := some "Not a Twitter/Bluesky URL"}, [])
      else
        .ok ({s with stored := true},
          [⟨"Sheet1", current_row.id, Col.named "store_ts", now⟩,
           ⟨"Sheet1", current_row.id, Col.named "tweets", dumpTweets s.tweets⟩])

/-- The posting loop (`for tweet in tweets: await ... post(tweet['text'])`);
stops at the first raising call. -/
def postAll (post : String → Except String Unit) : List Tweet → Except String Unit
  | [] => .ok ()
  | t :: rest =>
    match post t.text with
    | .ok () => postAll post rest
    | .error e => .error e

/-- `WorkflowGraph.post_to_twitter_node` (`src/mcp_client/workflow_graph.py:390-434`);
`post` is the `self.twitter.post_tweet` oracle. -/
def post_to_twitter_node (post : String → Except String Unit) (s : State) :
    Except String (State × List CellWrite) :=
  if truthyOpt s.error then .ok (s, [])
  else if s.tweets = [] then .ok ({s with error := some "No tweets available to post"}, [])
  else
    match s.current_row with
    | none => .error "KeyError: current_row"
    | some current_row =>
      if current_row.sheet ≠ "Sheet1" then
        .ok ({s with skipped := true, reason := some "Not a Twitter/Bluesky URL"}, [])
      else
        match postAll post s.tweets with
        | .ok () =>
          .ok ({s with posted := true},
            [⟨"Sheet1", current_row.id, Col.named "twitter_result", "success"⟩,
             ⟨"Sheet1", current_row.id, Col.named "retry_count_post_twitter", "0"⟩])
        | .error e =>
          .ok ({s with error := some ("Error posting tweets: " ++ e)},
            [⟨"Sheet1", current_row.id, Col.named "twitter_result", "error"⟩,
             ⟨"Sheet1", current_row.id, Col.named "retry_count_post_twitter",
               toString (parseRetryCount current_row.retry_count_post_twitter + 1)⟩])

/-- `WorkflowGraph.post_to_bsky_node` (`src/mcp_client/workflow_graph.py:436-480`);
`post` is the `self.bsky.create_post` oracle. -/
def post_to_bsky_node (post : String → Except String Unit) (s : State) :
    Except String (State × List CellWrite) :=
  if truthyOpt s.error then .ok (s, [])
  else if s.tweets = [] then
    .ok ({s with error := some "No tweets available to post to Bluesky"}, [])
  else
    match s.current_row with
    | none => .error "KeyError: current_row"
    | some current_row =>
      if current_row.sheet ≠ "Sheet1" then
        .ok ({s with skipped := true, reason := some "Not a Twitter/Bluesky URL"}, [])
      else
        match postAll post s.tweets with
        | .ok () =>
          .ok ({s with posted_to_bsky := true},
            [⟨"Sheet1", current_row.id, Col.named "bsky_result", "success"⟩,
             ⟨"Sheet1", current_row.id, Col.named "retry_count_post_bsky", "0"⟩])
        | .error e =>
          .ok ({s with error := some ("Error posting to Bluesky: " ++ e)},
            [⟨"Sheet1", current_row.id, Col.named "bsky_result", "error"⟩,
             ⟨"Sheet1", current_row.id, Col.named "retry_count_post_bsky",
               toString (parseRetryCount current_row.retry_count_post_bsky + 1)⟩])

/-- `WorkflowGraph.post_to_telegram_node` (`src/mcp_client/workflow_graph.py:575-639`);
`headers2` is the `Sheet2` header row, `fmtOk`/`postOk` the
`format_telegram_message` truthiness and `post_to_telegram` oracles. -/
def post_to_telegram_node (headers2 : List String) (fmtOk postOk : Bool) (now : String)
    (s : State) : Except String (State × List CellWrite) :=
  if truthyOpt s.error then .ok (s, [])
  else if ¬ truthyOpt s.text then
    .ok ({s with error := some "No content available to post to Telegram"}, [])
  else
    match s.current_row with
    | none => .error "KeyError: current_row"
    | some current_row =>
      if current_row.sheet ≠ "Sheet2" then
        .ok ({s with skipped := true, reason := some "Not a Telegram URL"}, [])
      else
        let missing := ["status", "error", "last_update_ts"].filter (· ∉ headers2)
        if missing ≠ [] then
          .ok ({s with error := some ("Missing required columns: " ++ toString missing)}, [])
        else
          let exceptPath := fun (e : String) =>
            let error_msg := "Error posting to Telegram: " ++ e
            ({s with error := some error_msg},
             [⟨"Sheet2", current_row.id, Col.named "status", "error"⟩,
              ⟨"Sheet2", current_row.id, Col.named "error", error_msg⟩,
              ⟨"Sheet2", current_row.id, Col.named "last_update_ts", now⟩])
          if ¬ fmtOk then .ok (exceptPath "Failed to format message for Telegram")
          else if ¬ postOk then .ok (exceptPath "Failed to post to Telegram")
          else
            .ok ({s with posted_to_telegram := true},
              [⟨"Sheet2", current_row.id, Col.named "status", "complete"⟩,
               ⟨"Sheet2", current_row.id, Col.named "last_update_ts", now⟩])

/-- `WorkflowGraph.engage_posts_node` (`src/mcp_client/workflow_graph.py:488-535`);
`engagement` is the combined `search_and_like_tweets` /
`search_and_like_blockchain` oracle (the random search term does not affect
the state).  Both `self.sheets.update_row(...)` calls (lines 511 and 528)
pass two positional arguments to a method requiring three
(`sheet_name, row_index, updates`), so they raise `TypeError`; on the success
path that `TypeError` is caught by the `except`, whose own `update_row` call
then raises the same `TypeError` out of the node.  Hence whenever a
`current_row` is present and the branch is entered, the node raises. -/
def engage_posts_node (engagement : Except String Unit) (s : State) :
    Except String (State × List CellWrite) :=
  if truthyOpt s.error then .ok (s, [])
  else if s.engagement_only || s.posted then
    match engagement with
    | .ok () =>
      match s.current_row with
      | some _ =>
        .error "TypeError: update_row missing 1 required positional argument: updates"
      | none => .ok ({s with engaged := true}, [])
    | .error e =>
      match s.current_row with
      | some _ =>
        .error "TypeError: update_row missing 1 required positional argument: updates"
      | none => .ok ({s with error := some ("Error engaging with posts: " ++ e)}, [])
  else .ok (s, [])

/-- `WorkflowGraph.schedule_followups_node` (`src/mcp_client/workflow_graph.py:537-573`).
`state["current_row"]` raises `KeyError` when absent.  With a row present,
the `try` body dereferences `self.db`, an attribute `WorkflowGraph.__init__`
never creates, raising `AttributeError`; the `except` then evaluates
`int(current_row.get('retry_count_followup', '0'))` (raising `ValueError` on
a non-numeric value) and calls `update_row` with two positional arguments,
raising `TypeError` — so this path always raises out of the node. -/
def schedule_followups_node (s : State) : Except String (State × List CellWrite) :=
  if s.error.isSome then .ok (s, [])
  else if ¬ s.engaged then .ok ({s with error := some "No posts were engaged with"}, [])
  else
    match s.current_row with
    | none => .error "KeyError: current_row"
    | some current_row =>
      match pyInt (current_row.retry_count_followup.getD "0") with
      | none => .error "ValueError: invalid literal for int"
      | some _ =>
        .error "TypeError: update_row missing 1 required positional argument: updates"

/-- The fresh `{"end": True}` dict returned by `completion_node`. -/
def endState : State := { endOfRun := true }

/-- `WorkflowGraph.completion_node` (`src/mcp_client/workflow_graph.py:641-664`):
without a `current_row` return `{"end": True}` untouched; otherwise write the
final status (`complete` when `state.get('error')` is falsy, else `error`)
and `last_update_ts` through `GoogleSheetsClient.update_row` and return
`{"end": True}`. -/
def completion_node (headers : List String) (now : String) (s : State) :
    State × List CellWrite :=
  match s.current_row with
  | none => (endState, [])
  | some current_row =>
    let status := if ¬ truthyOpt s.error then "complete" else "error"
    (endState,
     GoogleSheetsClient.update_row headers current_row.sheet current_row.id
       [("status", status), ("last_update_ts", now)])

/-- The `has_error` predicate of `build_workflow_graph`
(`src/mcp_client/workflow_graph.py:729-730`): `"error" in state`. -/
def hasError (s : State) : Bool := s.error.isSome

/-- The `should_engage_only` predicate of `build_workflow_graph`
(`src/mcp_client/workflow_graph.py:717-718`). -/
def should_engage_only (s : State) : Bool := s.engagement_only

/-- The conditional-edge routing of `build_workflow_graph`
(`src/mcp_client/workflow_graph.py:716-789`): the successor node chosen for
the state a node returned. -/
def routeAfter (node : String) (s : State) : String :=
  if node = "batch_retrieval" then
    if should_engage_only s then "engage_posts" else "extract_content"
  else if node = "extract_content" then
    if hasError s then "completion" else "post_to_telegram"
  else if node = "post_to_telegram" then
    if hasError s then "completion" else "generate_tweets"
  else if node = "generate_tweets" then
    if hasError s then "completion" else "store_tweets"
  else if node = "store_tweets" then
    if hasError s then "completion" else "post_to_twitter"
  else if node = "post_to_twitter" then
    if hasError s then "completion" else "post_to_bsky"
  else if node = "post_to_bsky" then
    if hasError s then "completion" else "engage_posts"
  else if node = "engage_posts" then
    if hasError s then "completion" else "schedule_followups"
  else if node = "schedule_followups" then "completion"
  else "END"

end WorkflowGraph

/-- The outcome of one `retry_with_backoff` run: the value returned or the
exception re-raised (`none` only for `max_retries = 0`, where the Python
loop body never runs and the function returns `None`), the sleep durations
performed between attempts, and how many times `fn` was invoked. -/
structure RetryRun (α : Type) where
  result : Option (Except String α)
  sleeps : List ℚ
  calls : Nat

/-- The loop of `retry_with_backoff` (`src/common/retry_utils.py:8-17`) from
attempt index `attempt` on: call `fn`, return its value on success; on the
last attempt re-raise, otherwise sleep
`base_delay * 2 ** attempt + random.uniform(0, 1)` (the jitter draw is the
`jitter` oracle) and continue. -/
def retryAux (fn : Nat → Except String α) (jitter : Nat → ℚ) (base : ℚ)
    (maxR attempt : Nat) : RetryRun α :=
  if _h : attempt < maxR then
    match fn attempt with
    | .ok a => ⟨some (.ok a), [], 1⟩
    | .error e =>
      if attempt = maxR - 1 then ⟨some (.error e), [], 1⟩
      else
        let r := retryAux fn jitter base maxR (attempt + 1)
        ⟨r.result, (base * 2 ^ attempt + jitter attempt) :: r.sleeps, r.calls + 1⟩
  else ⟨none, [], 0⟩
termination_by maxR - attempt
decreasing_by omega

/-- `retry_with_backoff(fn, max_retries, base_delay)`
(`src/common/retry_utils.py`; defaults `max_retries=3`, `base_delay=1`). -/
def retry_with_backoff (fn : Nat → Except String α) (jitter : Nat → ℚ)
    (maxR : Nat) (base : ℚ) : RetryRun α :=
  retryAux fn jitter base maxR 0

namespace ExtractContentTool

/-- The generic selector list (`selectors['default']`) of
`ExtractContent.get_site_specific_selectors`
(`src/mcp_server/tools/extract_content.py:102-122`). -/
def defaultSelectors : List String :=
  ["article", ".article", ".post-content", ".entry-content", "main", ".content",
   "#content", ".post", ".article-content", ".story-content", ".article-body",
   ".post-body", ".entry", ".blog-post", ".news-content", "[itemprop=\"articleBody\"]",
   ".article-text", ".article-body-text", ".article-content-text"]

/-- `ExtractContent.get_site_specific_selectors`
(`src/mcp_server/tools/extract_content.py:72-125`): the domain-keyed list
when the domain is known, otherwise the generic list —
`selectors.get(domain, selectors['default'])` picks one of the two, never
both. -/
def get_site_specific_selectors (url : String) : List String :=
  let domain := pyLower (urlparse url).2
  if domain = "cointelegraph.com" then
    [".post__content", ".post__content-wrapper", "article", ".article__content",
     "[itemprop=\"articleBody\"]", ".post-content", ".article-text"]
  else if domain = "crypto.news" then
    [".article-content", ".post-content", "article", ".entry-content",
     "[itemprop=\"articleBody\"]", ".content-area"]
  else if domain = "analytickit.com" then
    [".post-content", ".entry-content", "article", ".article-content",
     "[itemprop=\"articleBody\"]", ".content"]
  else defaultSelectors

/-- A rendered page as the extractor sees it: `nav` is whether navigation and
rendering succeeded (otherwise the outer `except` returns `""`); `select`
gives, per CSS selector, the cleaned visible texts of its matches (after the
standard noise-element removal and whitespace normalisation of
`src/mcp_server/tools/extract_content.py:216-221`); `body` is the body text
after the extended noise removal that also strips `nav`/`footer`/`header`
(lines 243-253). -/
structure Page where
  nav : Bool
  select : String → List String
  body : Option String

/-- First candidate text longer than 100 characters
(`if len(text) > 100: return text`). -/
def firstLong : List String → Option String
  | [] => none
  | t :: rest => if t.length > 100 then some t else firstLong rest

/-- `soup.select_one('main') or soup.select_one('#main') or soup.select_one('.main')`
(`src/mcp_server/tools/extract_content.py:229`). -/
def mainCandidate (pg : Page) : Option String :=
  (pg.select "main").head? <|> (pg.select "#main").head? <|> (pg.select ".main").head?

/-- The body fallback (`src/mcp_server/tools/extract_content.py:243-253`). -/
def bodyFallback (pg : Page) : String :=
  match pg.body with
  | some t => if t.length > 100 then t else ""
  | none => ""

/-- `ExtractContent.extract` (`src/mcp_server/tools/extract_content.py:152-264`):
reject invalid URLs with `""`; on a rendered page, return the first
selector-candidate text over 100 characters, trying the selectors of
`get_site_specific_selectors` in order and each match in document order, then
the `main` candidate, then the body fallback, else `""`. -/
def extract (pg : Page) (url : String) : String :=
  if ¬ is_valid_url (.str url) then ""
  else if ¬ pg.nav then ""
  else
    let selectors := get_site_specific_selectors url
    match firstLong ((selectors.map pg.select).flatten) with
    | some t => t
    | none =>
      match mainCandidate pg with
      | some t => if t.length > 100 then t else bodyFallback pg
      | none => bodyFallback pg

/-- The candidate sequence `extract` actually scans, in order. -/
def actualCandidates (pg : Page) (url : String) : List String :=
  ((get_site_specific_selectors url).map pg.select).flatten ++
    (mainCandidate pg).toList ++ pg.body.toList

/-- The candidate sequence in the order the claim states it: domain-specific
selectors, THEN the generic list, then `main`, then the body.  (Stated from
the claim for comparison with `actualCandidates`; the source never
concatenates the two selector lists.) -/
def claimedCandidates (pg : Page) (url : String) : List String :=
  let domain := pyLower (urlparse url).2
  let domainSpecific :=
    if domain = "cointelegraph.com" ∨ domain = "crypto.news" ∨ domain = "analytickit.com"
    then get_site_specific_selectors url else []
  (((domainSpecific ++ defaultSelectors).map pg.select).flatten) ++
    (mainCandidate pg).toList ++ pg.body.toList

/-- A 150-character article text, used as a concrete extraction fixture. -/
def ceArticle : String := String.mk (List.replicate 150 'a')

/-- A concrete body text containing the article plus surrounding page text
(the body of a page always contains its article's text). -/
def ceBody : String := ceArticle ++ " and forty more characters of body text"

/-- A concrete `cointelegraph.com` page on which none of the domain-specific
selectors matches, the generic selector `.entry-content` holds the article,
`main`/`#main`/`.main` are absent, and the cleaned body text qualifies. -/
def cePage : Page :=
  ⟨true, fun sel => if sel = ".entry-content" then [ceArticle] else [], some ceBody⟩

end ExtractContentTool

/-- C10: the three copies of `is_valid_url` in `WorkflowGraph`,
`ExtractContent`, and `GoogleSheetsClient` are extensionally equal, and their
common behaviour is: `false` on non-strings, `false` on the four status
keywords in any letter case, and otherwise `true` exactly when the value
parses to a URL with both a scheme and a host. -/
theorem is_valid_url_copies_agree :
    ∀ v : PyVal,
      (WorkflowGraph.is_valid_url v = ExtractContentTool.is_valid_url v ∧
       ExtractContentTool.is_valid_url v = GoogleSheetsClient.is_valid_url v) ∧
      (GoogleSheetsClient.is_valid_url v = true ↔
        ∃ s, v = PyVal.str s ∧ pyLower s ∉ statusKeywords ∧
          (urlparse s).1 ≠ "" ∧ (urlparse s).2 ≠ "") := by
  intro v
  refine ⟨⟨rfl, rfl⟩, ?_⟩
  cases v with
  | str s =>
    simp only [GoogleSheetsClient.is_valid_url]
    by_cases h : pyLower s ∈ statusKeywords
    · simp [h]
    · simp only [h, if_false, Bool.and_eq_true, decide_eq_true_eq]
      constructor
      · rintro ⟨h1, h2⟩
        exact ⟨s, rfl, h, h1, h2⟩
      · rintro ⟨t, ht, -, h1, h2⟩
        cases ht
        exact ⟨h1, h2⟩
  | intVal n =>
    simp [GoogleSheetsClient.is_valid_url]
  | noneVal =>
    simp [GoogleSheetsClient.is_valid_url]

/-- Helper: `retryAux` of a constant attempt function yields that attempt's
outcome whenever at least one attempt remains. -/
theorem retryAux_const (r : Except String α) (jitter : Nat → ℚ) (base : ℚ) :
    ∀ fuel maxR attempt, maxR ≤ attempt + fuel → attempt < maxR →
      (retryAux (fun _ => r) jitter base maxR attempt).result = some r := by
  intro fuel
  induction fuel with
  | zero => intro maxR attempt hle hlt; omega
  | succ n ih =>
    intro maxR attempt hle hlt
    rw [retryAux]
    simp only [hlt, dif_pos]
    cases r with
    | ok a => rfl
    | error e =>
      by_cases hlast : attempt = maxR - 1
      · simp [hlast]
      · simp only [hlast, if_false]
        exact ih maxR (attempt + 1) (by omega) (by omega)

/-- Helper: `retry_with_backoff` with a deterministic operation returns that
operation's outcome (this connects `extract_content_node` to the retry
helper: `try_extract` is deterministic for a fixed extractor). -/
theorem retry_with_backoff_const (r : Except String α) (jitter : Nat → ℚ)
    (base : ℚ) (maxR : Nat) (h : 0 < maxR) :
    (retry_with_backoff (fun _ => r) jitter maxR base).result = some r :=
  retryAux_const r jitter base maxR maxR 0 (by omega) h

/-- C9: on a `WorkflowState` without `current_row`, `completion_node`
performs no spreadsheet write and returns the end-of-run signal
`{"end": True}`; running it again on that result is the same no-op. -/
theorem completion_node_idempotent_no_row (headers : List String) (now : String)
    (s : State) (h : s.current_row = none) :
    WorkflowGraph.completion_node headers now s = (WorkflowGraph.endState, []) ∧
    WorkflowGraph.completion_node headers now WorkflowGraph.endState =
      (WorkflowGraph.endState, []) ∧
    WorkflowGraph.endState.endOfRun = true := by
  refine ⟨?_, rfl, rfl⟩
  unfold WorkflowGraph.completion_node
  rw [h]

/-- Witness for C9 at the empty initial state. -/
theorem completion_node_idempotent_no_row_witness :
    WorkflowGraph.completion_node COLUMNS "T0" {} = (WorkflowGraph.endState, []) ∧
    WorkflowGraph.completion_node COLUMNS "T0" WorkflowGraph.endState =
      (WorkflowGraph.endState, []) ∧
    WorkflowGraph.endState.endOfRun = true :=
  completion_node_idempotent_no_row COLUMNS "T0" {} rfl

/-- C2 (code bug): the stage functions do raise out of the pipeline.  On an
engagement-only cycle (no `current_row`), `engage_posts_node` succeeds, the
router forwards to `schedule_followups`, and `schedule_followups_node` raises
`KeyError` at `state["current_row"]`; and whenever `engage_posts_node` runs
its engagement branch with a `current_row` present, the two-positional-
argument `self.sheets.update_row(...)` call raises `TypeError` out of the
node (on the success path the first `TypeError` is caught and the `except`
block's identical call re-raises). -/
theorem engage_and_schedule_raise :
    WorkflowGraph.engage_posts_node (.ok ()) { engagement_only := true } =
      .ok ({ engagement_only := true, engaged := true }, []) ∧
    WorkflowGraph.routeAfter "engage_posts" { engagement_only := true, engaged := true } =
      "schedule_followups" ∧
    WorkflowGraph.schedule_followups_node { engagement_only := true, engaged := true } =
      .error "KeyError: current_row" ∧
    WorkflowGraph.engage_posts_node (.ok ())
        { engagement_only := true,
          current_row := some { id := 2, url := .str "https://example.com/a", sheet := "Sheet1" } } =
      .error "TypeError: update_row missing 1 required positional argument: updates" := by
  refine ⟨rfl, rfl, rfl, rfl⟩

/-- C4 (code bug): `batch_retrieval` marks sheet row 2 `in_progress`
(`update_cell(row_idx, 3, ...)` with `row_idx = 2`), but `completion_node`,
going through `GoogleSheetsClient.update_row`, writes the final status at
`row_index + 1 = 3` — one row below the row it claims to complete.  The
status value itself follows the claim (`complete` without error, `error`
with), and `last_update_ts` is written alongside, but to the wrong row. -/
theorem completion_writes_wrong_row :
    WorkflowGraph.batch_retrieval [{ url := .str "https://example.com/a" }] [] 5 "T0" {} =
      ({ rows := [{ id := 2, url := .str "https://example.com/a", sheet := "Sheet1" }],
         engagement_only := false },
       [⟨"Sheet1", 2, Col.num 3, "in_progress"⟩, ⟨"Sheet1", 2, Col.num 4, "T0"⟩]) ∧
    WorkflowGraph.completion_node COLUMNS "T1"
        { current_row := some { id := 2, url := .str "https://example.com/a", sheet := "Sheet1" } } =
      (WorkflowGraph.endState,
       [⟨"Sheet1", 3, Col.num 3, "complete"⟩, ⟨"Sheet1", 3, Col.num 19, "T1"⟩]) ∧
    WorkflowGraph.completion_node COLUMNS "T1"
        { current_row := some { id := 2, url := .str "https://example.com/a", sheet := "Sheet1" },
          error := some "boom" } =
      (WorkflowGraph.endState,
       [⟨"Sheet1", 3, Col.num 3, "error"⟩, ⟨"Sheet1", 3, Col.num 19, "T1"⟩]) ∧
    (2 : Nat) ≠ 3 := by
  refine ⟨by decide, by decide, by decide, by decide⟩

/-- C1 (counterexample): a `Sheet1` row whose `url` cell is literally
`"pending"` — not a URL and a status keyword — is NOT marked `error` by
`batch_retrieval`: it is marked `in_progress` and returned in `rows`, i.e.
handed to the `extract_content` stage. -/
theorem batch_retrieval_passes_invalid_url :
    WorkflowGraph.batch_retrieval [{ url := .str "pending" }] [] 5 "T0" {} =
      ({ rows := [{ id := 2, url := .str "pending", sheet := "Sheet1" }],
         engagement_only := false },
       [⟨"Sheet1", 2, Col.num 3, "in_progress"⟩, ⟨"Sheet1", 2, Col.num 4, "T0"⟩]) ∧
    WorkflowGraph.is_valid_url (.str "pending") = false ∧
    ((WorkflowGraph.batch_retrieval [{ url := .str "pending" }] [] 5 "T0" {}).2.all
      fun w => w.value ≠ "error") = true := by
  refine ⟨by decide, by decide, by decide⟩

/-- Helper: every row collected by the claiming loop has a truthy URL and an
`in_progress` mark among the writes, and every write is either the
`in_progress` mark or the timestamp. -/
theorem claimLoop_spec (lookup : Nat → Option PyVal) (sheetName now : String) :
    ∀ idxs : List Nat,
      (∀ r ∈ (WorkflowGraph.claimLoop lookup sheetName now idxs).1,
        r.url.truthy = true ∧ r.sheet = sheetName ∧
        (⟨sheetName, r.id, Col.num 3, "in_progress"⟩ : CellWrite) ∈
          (WorkflowGraph.claimLoop lookup sheetName now idxs).2) ∧
      (∀ w ∈ (WorkflowGraph.claimLoop lookup sheetName now idxs).2,
        w.value = "in_progress" ∨ w.value = now) := by
  intro idxs
  induction idxs with
  | nil => simp [WorkflowGraph.claimLoop]
  | cons idx rest ih =>
    rw [WorkflowGraph.claimLoop]
    cases hl : lookup idx with
    | none => simpa using ih
    | some url =>
      by_cases ht : url.truthy
      · simp only [ht, if_true]
        constructor
        · intro r hr
          rcases List.mem_cons.mp hr with rfl | hr
          · exact ⟨ht, rfl, by simp⟩
          · obtain ⟨h1, h2, h3⟩ := ih.1 r hr
            exact ⟨h1, h2, by simp [h3]⟩
        · intro w hw
          rcases List.mem_cons.mp hw with rfl | hw
          · exact Or.inl rfl
          · rcases List.mem_cons.mp hw with rfl | hw
            · exact Or.inr rfl
            · exact ih.2 w hw
      · simpa [ht] using ih

/-- C1 (amended): `batch_retrieval` performs no URL validation at all: every
returned row merely has a truthy `url` cell and is marked `in_progress`
(never `error`).  Invalid URLs are passed on and detected only inside
`extract_content_node`, which marks the row `status=error`, records the
error in the state, and never consults the extractor (the node's result does
not depend on the `fetch` oracle for an invalid URL). -/
theorem batch_retrieval_defers_url_validation :
    (∀ recs1 recs2 M now s,
      (∀ r ∈ (WorkflowGraph.batch_retrieval recs1 recs2 M now s).1.rows,
        r.url.truthy = true ∧
        (⟨r.sheet, r.id, Col.num 3, "in_progress"⟩ : CellWrite) ∈
          (WorkflowGraph.batch_retrieval recs1 recs2 M now s).2) ∧
      (∀ w ∈ (WorkflowGraph.batch_retrieval recs1 recs2 M now s).2,
        w.value = "in_progress" ∨ w.value = now)) ∧
    (∀ (fetch fetch2 : PyVal → String) now s (row : Row) rest,
      s.rows = row :: rest → WorkflowGraph.is_valid_url row.url = false →
      (WorkflowGraph.extract_content_node fetch now s).1.error =
        some ("Invalid URL: " ++ row.url.pyStr) ∧
      (∃ sh, (⟨sh, row.id, Col.named "status", "error"⟩ : CellWrite) ∈
        (WorkflowGraph.extract_content_node fetch now s).2) ∧
      WorkflowGraph.extract_content_node fetch now s =
        WorkflowGraph.extract_content_node fetch2 now s) := by
  constructor
  · intro recs1 recs2 M now s
    have h1 := claimLoop_spec (fun idx => (recs1.get? (idx - 2)).map (·.url))
      "Sheet1" now ((WorkflowGraph.pendingIdxs1 recs1).take M)
    have h2 := claimLoop_spec (fun idx => (recs2.get? (idx - 2)).map (·.tele_urls))
      "Sheet2" now ((WorkflowGraph.pendingIdxs2 recs2).take M)
    simp only [WorkflowGraph.batch_retrieval]
    split
    · constructor
      · intro r hr
        obtain ⟨hu, hs, hw⟩ := h1.1 r hr
        refine ⟨hu, ?_⟩
        rw [hs]
        exact hw
      · exact h1.2
    · split
      · constructor
        · intro r hr
          obtain ⟨hu, hs, hw⟩ := h2.1 r hr
          refine ⟨hu, ?_⟩
          rw [hs]
          exact List.mem_append_right _ hw
        · intro w hw
          rcases List.mem_append.mp hw with h | h
          · exact h1.2 w h
          · exact h2.2 w h
      · constructor
        · intro r hr
          simp at hr
        · intro w hw
          rcases List.mem_append.mp hw with h | h
          · exact h1.2 w h
          · exact h2.2 w h
  · intro fetch fetch2 now s row rest hrows hinv
    unfold WorkflowGraph.extract_content_node
    rw [hrows]
    simp only [WorkflowGraph.tryExtract, hinv, Bool.false_eq_true, not_false_iff, if_true]
    by_cases hsheet : row.sheet = "Sheet1"
    · simp [hsheet]
    · simp [hsheet]

/-- Witness for C1's amended theorem: the `url="pending"` row is claimed as
`in_progress` by `batch_retrieval`, and `extract_content_node` then flags it
as an invalid URL without consulting the extractor. -/
theorem batch_retrieval_defers_url_validation_witness :
    ((⟨"Sheet1", 2, Col.num 3, "in_progress"⟩ : CellWrite) ∈
      (WorkflowGraph.batch_retrieval [{ url := .str "pending" }] [] 5 "T0" {}).2) ∧
    (WorkflowGraph.extract_content_node (fun _ => "ignored") "T1"
        { rows := [{ id := 2, url := .str "pending", sheet := "Sheet1" }] }).1.error =
      some "Invalid URL: pending" ∧
    WorkflowGraph.extract_content_node (fun _ => "ignored") "T1"
        { rows := [{ id := 2, url := .str "pending", sheet := "Sheet1" }] } =
      WorkflowGraph.extract_content_node (fun _ => "other") "T1"
        { rows := [{ id := 2, url := .str "pending", sheet := "Sheet1" }] } := by
  constructor
  · have h := (batch_retrieval_defers_url_validation.1
      [{ url := .str "pending" }] [] 5 "T0" {}).1
      { id := 2, url := .str "pending", sheet := "Sheet1" } (by decide)
    exact h.2
  · have h := batch_retrieval_defers_url_validation.2 (fun _ => "ignored") (fun _ => "other")
      "T1" { rows := [{ id := 2, url := .str "pending", sheet := "Sheet1" }] }
      { id := 2, url := .str "pending", sheet := "Sheet1" } [] rfl (by decide)
    exact ⟨h.1, h.2.2⟩

/-- C3 (amended): for a `Sheet1` WorkItem at the head of `rows`, successful
extraction writes the stage retry counter `retry_count_content` back as `"0"`
(with the `content_ts` timestamp), and failed extraction writes back the
item's prior counter value plus one, where a missing or unparseable prior
value counts as 0.  (`Sheet2` items get no retry-counter write at all — see
the counterexample.) -/
theorem extract_content_retry_counter :
    ∀ (fetch : PyVal → String) (now : String) (s : State) (row : Row) (rest : List Row),
      s.rows = row :: rest → row.sheet = "Sheet1" →
      ((∃ text, WorkflowGraph.tryExtract fetch row.url = .ok text) →
        (WorkflowGraph.extract_content_node fetch now s).2 =
          [⟨"Sheet1", row.id, Col.named "content_ts", now⟩,
           ⟨"Sheet1", row.id, Col.named "retry_count_content", "0"⟩]) ∧
      (∀ e, WorkflowGraph.tryExtract fetch row.url = .error e →
        (⟨"Sheet1", row.id, Col.named "retry_count_content",
            toString (parseRetryCount row.retry_count_content + 1)⟩ : CellWrite) ∈
          (WorkflowGraph.extract_content_node fetch now s).2) ∧
      parseRetryCount none = 0 ∧
      (∀ rc, pyInt rc = none → parseRetryCount (some rc) = 0) := by
  intro fetch now s row rest hrows hsheet
  refine ⟨?_, ?_, rfl, ?_⟩
  · rintro ⟨text, htext⟩
    unfold WorkflowGraph.extract_content_node
    rw [hrows]
    simp [htext, hsheet]
  · intro e he
    unfold WorkflowGraph.extract_content_node
    rw [hrows]
    simp [he, hsheet]
  · intro rc hrc
    unfold parseRetryCount
    by_cases h : rc = ""
    · simp [h]
    · simp [h, hrc]

/-- Witness for C3's amended theorem: a `Sheet1` row with prior counter
`"abc"` (unparseable, counted as 0) fails extraction on an invalid URL and
gets `"1"` written back; and a row with prior counter `"5"` would get `"6"`. -/
theorem extract_content_retry_counter_witness :
    ((⟨"Sheet1", 2, Col.named "retry_count_content", "1"⟩ : CellWrite) ∈
      (WorkflowGraph.extract_content_node (fun _ => "") "T0"
        { rows := [{ id := 2, url := .str "pending", sheet := "Sheet1",
                     retry_count_content := some "abc" }] }).2) ∧
    ((⟨"Sheet1", 2, Col.named "retry_count_content", "6"⟩ : CellWrite) ∈
      (WorkflowGraph.extract_content_node (fun _ => "") "T0"
        { rows := [{ id := 2, url := .str "pending", sheet := "Sheet1",
                     retry_count_content := some "5" }] }).2) ∧
    (WorkflowGraph.extract_content_node (fun _ => "long enough article text") "T0"
        { rows := [{ id := 2, url := .str "https://example.com/a", sheet := "Sheet1" }] }).2 =
      [⟨"Sheet1", 2, Col.named "content_ts", "T0"⟩,
       ⟨"Sheet1", 2, Col.named "retry_count_content", "0"⟩] := by
  refine ⟨?_, ?_, ?_⟩
  · have h := (extract_content_retry_counter (fun _ => "") "T0"
      { rows := [{ id := 2, url := .str "pending", sheet := "Sheet1",
                   retry_count_content := some "abc" }] }
      { id := 2, url := .str "pending", sheet := "Sheet1",
        retry_count_content := some "abc" } [] rfl rfl).2.1
      "Invalid URL: pending" rfl
    simpa using h
  · have h := (extract_content_retry_counter (fun _ => "") "T0"
      { rows := [{ id := 2, url := .str "pending", sheet := "Sheet1",
                   retry_count_content := some "5" }] }
      { id := 2, url := .str "pending", sheet := "Sheet1",
        retry_count_content := some "5" } [] rfl rfl).2.1
      "Invalid URL: pending" rfl
    simpa using h
  · exact (extract_content_retry_counter (fun _ => "long enough article text") "T0"
      { rows := [{ id := 2, url := .str "https://example.com/a", sheet := "Sheet1" }] }
      { id := 2, url := .str "https://example.com/a", sheet := "Sheet1" } [] rfl rfl).1
      ⟨"long enough article text", rfl⟩

/-- C3 (counterexample): a `Sheet2` WorkItem processed successfully by
`extract_content_node` gets NO retry-counter write at all — only
`last_update_ts` — contradicting the claim's universal "on successful
extraction the stage writes the stage-specific retry counter back as 0". -/
theorem extract_content_sheet2_no_counter_write :
    WorkflowGraph.extract_content_node (fun _ => "A sufficiently long article body") "T0"
        { rows := [{ id := 2, url := .str "https://crypto.news/a", sheet := "Sheet2",
                     retry_count_content := some "5" }] } =
      ({ current_row := some { id := 2, url := .str "https://crypto.news/a",
                               sheet := "Sheet2", retry_count_content := some "5" },
         text := some "A sufficiently long article body" },
       [⟨"Sheet2", 2, Col.named "last_update_ts", "T0"⟩]) ∧
    ((WorkflowGraph.extract_content_node (fun _ => "A sufficiently long article body") "T0"
        { rows := [{ id := 2, url := .str "https://crypto.news/a", sheet := "Sheet2",
                     retry_count_content := some "5" }] }).2.all
      fun w => match w.col with
        | Col.named c => ¬ pyStartsWith c "retry_count"
        | Col.num _ => true) = true := by
  refine ⟨by decide, by decide⟩

/-- C5 (amended): when `state.error` is set (to a non-empty message, as every
error path sets it), each stage after `extract_content` — telegram, tweet
generation, storing, twitter, bsky, engagement, follow-ups — returns the
state unchanged with no spreadsheet write, and the conditional edges route
the state from any post-`batch_retrieval` stage straight to `completion`.
`extract_content_node`, however, has no error guard: it skips only when
`rows` is empty (see the counterexample). -/
theorem error_short_circuit :
    ∀ s : State, truthyOpt s.error = true →
      (∀ hdrs fmtOk postOk now,
        WorkflowGraph.post_to_telegram_node hdrs fmtOk postOk now s = .ok (s, [])) ∧
      (∀ llm jp now, WorkflowGraph.generate_tweets_node llm jp now s = .ok (s, [])) ∧
      (∀ now, WorkflowGraph.store_tweets_node now s = .ok (s, [])) ∧
      (∀ post, WorkflowGraph.post_to_twitter_node post s = .ok (s, [])) ∧
      (∀ post, WorkflowGraph.post_to_bsky_node post s = .ok (s, [])) ∧
      (∀ eng, WorkflowGraph.engage_posts_node eng s = .ok (s, [])) ∧
      WorkflowGraph.schedule_followups_node s = .ok (s, []) ∧
      (∀ node ∈ ["extract_content", "post_to_telegram", "generate_tweets",
          "store_tweets", "post_to_twitter", "post_to_bsky", "engage_posts",
          "schedule_followups"],
        WorkflowGraph.routeAfter node s = "completion") := by
  intro s herr
  have hsome : s.error.isSome = true := by
    cases he : s.error with
    | none => rw [he] at herr; simp [truthyOpt] at herr
    | some e => rfl
  refine ⟨?_, ?_, ?_, ?_, ?_, ?_, ?_, ?_⟩
  · intro hdrs fmtOk postOk now
    simp [WorkflowGraph.post_to_telegram_node, herr]
  · intro llm jp now
    simp [WorkflowGraph.generate_tweets_node, herr]
  · intro now
    simp [WorkflowGraph.store_tweets_node, herr]
  · intro post
    simp [WorkflowGraph.post_to_twitter_node, herr]
  · intro post
    simp [WorkflowGraph.post_to_bsky_node, herr]
  · intro eng
    simp [WorkflowGraph.engage_posts_node, herr]
  · simp [WorkflowGraph.schedule_followups_node, hsome]
  · intro node hn
    fin_cases hn <;> simp [WorkflowGraph.routeAfter, WorkflowGraph.hasError, hsome]

/-- Witness for C5's amended theorem at the state `{error := some "boom"}`. -/
theorem error_short_circuit_witness :
    WorkflowGraph.generate_tweets_node (.ok "x") (fun _ => .decodeError) "T0"
        { error := some "boom" } = .ok ({ error := some "boom" }, []) ∧
    WorkflowGraph.store_tweets_node "T0" { error := some "boom" } =
      .ok ({ error := some "boom" }, []) ∧
    WorkflowGraph.engage_posts_node (.ok ()) { error := some "boom" } =
      .ok ({ error := some "boom" }, []) ∧
    WorkflowGraph.schedule_followups_node { error := some "boom" } =
      .ok ({ error := some "boom" }, []) ∧
    WorkflowGraph.routeAfter "post_to_bsky" { error := some "boom" } = "completion" := by
  have h := error_short_circuit { error := some "boom" } (by decide)
  exact ⟨h.2.1 (.ok "x") (fun _ => .decodeError) "T0", h.2.2.1 "T0",
    h.2.2.2.2.2.1 (.ok ()), h.2.2.2.2.2.2.1,
    h.2.2.2.2.2.2.2 "post_to_bsky" (by decide)⟩

/-- C5 (counterexample): `extract_content_node` has no error guard — on a
state with `error` already set and a non-empty `rows`, it still processes
the head row, mutates the state, and performs spreadsheet writes, refuting
the claim that every stage after `batch_retrieval` returns an error state
unchanged without writes. -/
theorem extract_content_ignores_error :
    WorkflowGraph.extract_content_node (fun _ => "") "T0"
        { rows := [{ id := 2, url := .str "pending", sheet := "Sheet1" }],
          error := some "boom" } =
      ({ error := some "Invalid URL: pending",
         current_row := some { id := 2, url := .str "pending", sheet := "Sheet1" } },
       [⟨"Sheet1", 2, Col.named "status", "error"⟩,
        ⟨"Sheet1", 2, Col.named "retry_count_content", "1"⟩,
        ⟨"Sheet1", 2, Col.named "content_ts", "T0"⟩]) ∧
    truthyOpt (some "boom") = true ∧
    (WorkflowGraph.extract_content_node (fun _ => "") "T0"
        { rows := [{ id := 2, url := .str "pending", sheet := "Sheet1" }],
          error := some "boom" }).1 ≠
      { rows := [{ id := 2, url := .str "pending", sheet := "Sheet1" }],
        error := some "boom" } ∧
    (WorkflowGraph.extract_content_node (fun _ => "") "T0"
        { rows := [{ id := 2, url := .str "pending", sheet := "Sheet1" }],
          error := some "boom" }).2 ≠ [] := by
  refine ⟨by decide, by decide, by decide, by decide⟩

/-- Helper: the retry loop performs at most `maxR - attempt` further calls. -/
theorem retryAux_calls_le (fn : Nat → Except String α) (jitter : Nat → ℚ) (base : ℚ) :
    ∀ fuel maxR attempt, maxR ≤ attempt + fuel →
      (retryAux fn jitter base maxR attempt).calls ≤ maxR - attempt := by
  intro fuel
  induction fuel with
  | zero =>
    intro maxR attempt hle
    rw [retryAux]
    have : ¬ attempt < maxR := by omega
    simp [this]
  | succ n ih =>
    intro maxR attempt hle
    rw [retryAux]
    by_cases hlt : attempt < maxR
    · simp only [hlt, dif_pos]
      cases fn attempt with
      | ok a => simpa using by omega
      | error e =>
        by_cases hlast : attempt = maxR - 1
        · simp only [hlast, if_true]
          omega
        · simp only [hlast, if_false]
          have := ih maxR (attempt + 1) (by omega)
          omega
    · simp [hlt]

/-- Helper: with at least one attempt remaining, the loop calls `fn` at
least once. -/
theorem retryAux_calls_pos (fn : Nat → Except String α) (jitter : Nat → ℚ) (base : ℚ)
    (maxR attempt : Nat) (hlt : attempt < maxR) :
    1 ≤ (retryAux fn jitter base maxR attempt).calls := by
  rw [retryAux]
  simp only [hlt, dif_pos]
  cases fn attempt with
  | ok a => simp
  | error e =>
    by_cases hlast : attempt = maxR - 1
    · simp [hlast]
    · simp only [hlast, if_false]
      omega

/-- Helper: the sleeps performed from attempt `attempt` on are exactly
`base * 2 ^ (attempt + i) + jitter (attempt + i)` for
`i < calls - 1` (one sleep between consecutive attempts, none after the
last). -/
theorem retryAux_sleeps (fn : Nat → Except String α) (jitter : Nat → ℚ) (base : ℚ) :
    ∀ fuel maxR attempt, maxR ≤ attempt + fuel →
      (retryAux fn jitter base maxR attempt).sleeps =
        (List.range ((retryAux fn jitter base maxR attempt).calls - 1)).map
          (fun i => base * 2 ^ (attempt + i) + jitter (attempt + i)) := by
  intro fuel
  induction fuel with
  | zero =>
    intro maxR attempt hle
    rw [retryAux]
    have : ¬ attempt < maxR := by omega
    simp [this]
  | succ n ih =>
    intro maxR attempt hle
    rw [retryAux]
    by_cases hlt : attempt < maxR
    · simp only [hlt, dif_pos]
      cases fn attempt with
      | ok a => simp
      | error e =>
        by_cases hlast : attempt = maxR - 1
        · simp [hlast]
        · simp only [hlast, if_false]
          have hpos := retryAux_calls_pos fn jitter base maxR (attempt + 1) (by omega)
          have hih := ih maxR (attempt + 1) (by omega)
          obtain ⟨m, hm⟩ : ∃ m, (retryAux fn jitter base maxR (attempt + 1)).calls = m + 1 :=
            ⟨(retryAux fn jitter base maxR (attempt + 1)).calls - 1, by omega⟩
          rw [hm] at hih
          simp only [Nat.add_sub_cancel] at hih
          simp only [hm, Nat.add_sub_cancel, List.range_succ_eq_map, List.map_cons,
            List.map_map]
          congr 1
          rw [hih]
          apply List.map_congr_left
          intro i _
          have harg : attempt + 1 + i = attempt + Nat.succ i := by omega
          simp [Function.comp, harg]
    · simp [hlt]

/-- Helper: when every remaining attempt fails, the loop re-raises the last
attempt's exception. -/
theorem retryAux_allfail (fn : Nat → Except String α) (jitter : Nat → ℚ) (base : ℚ)
    (e : Nat → String) :
    ∀ fuel maxR attempt, maxR ≤ attempt + fuel → attempt < maxR →
      (∀ i, attempt ≤ i → i < maxR → fn i = .error (e i)) →
      (retryAux fn jitter base maxR attempt).result = some (.error (e (maxR - 1))) := by
  intro fuel
  induction fuel with
  | zero => intro maxR attempt hle hlt; omega
  | succ n ih =>
    intro maxR attempt hle hlt hfail
    rw [retryAux]
    simp only [hlt, dif_pos]
    rw [hfail attempt le_rfl hlt]
    by_cases hlast : attempt = maxR - 1
    · simp [hlast]
    · simp only [hlast, if_false]
      exact ih maxR (attempt + 1) (by omega) (by omega)
        (fun i h1 h2 => hfail i (by omega) h2)

/-- C6: `retry_with_backoff(fn, max_retries=n, base_delay=base)` invokes `fn`
at most `n` times; the sleeps between consecutive attempts are exactly
`base * 2 ^ attempt + jitter(attempt)` with `attempt` counted from 0 (so,
with the jitter drawn uniformly from `[0, 1)`, each delay lies in
`[base * 2 ^ i, base * 2 ^ i + 1)`); and when all `n` invocations fail, the
`n`-th exception is re-raised to the caller. -/
theorem retry_with_backoff_spec :
    ∀ (fn : Nat → Except String α) (jitter : Nat → ℚ) (base : ℚ) (n : Nat)
      (e : Nat → String),
      (retry_with_backoff fn jitter n base).calls ≤ n ∧
      (retry_with_backoff fn jitter n base).sleeps =
        (List.range ((retry_with_backoff fn jitter n base).calls - 1)).map
          (fun i => base * 2 ^ i + jitter i) ∧
      ((∀ i, 0 ≤ jitter i ∧ jitter i < 1) →
        ∀ d ∈ (retry_with_backoff fn jitter n base).sleeps,
          ∃ i, i < n ∧ base * 2 ^ i ≤ d ∧ d < base * 2 ^ i + 1) ∧
      ((∀ i, i < n → fn i = .error (e i)) → 0 < n →
        (retry_with_backoff fn jitter n base).result = some (.error (e (n - 1)))) := by
  intro fn jitter base n e
  have hcalls := retryAux_calls_le fn jitter base n n 0 (by omega)
  have hsleeps := retryAux_sleeps fn jitter base n n 0 (by omega)
  simp only [Nat.zero_add] at hcalls hsleeps
  refine ⟨by simpa [retry_with_backoff] using hcalls, ?_, ?_, ?_⟩
  · simpa [retry_with_backoff] using hsleeps
  · intro hj d hd
    rw [retry_with_backoff, hsleeps] at hd
    simp only [List.mem_map, List.mem_range] at hd
    obtain ⟨i, hi, rfl⟩ := hd
    have h1 := (hj i).1
    have h2 := (hj i).2
    refine ⟨i, by omega, by simp; linarith, by linarith⟩
  · intro hfail hn
    rw [retry_with_backoff]
    exact retryAux_allfail fn jitter base e n n 0 (by omega) hn
      (fun i _ h2 => hfail i h2)

/-- Witness for C6 at the default bound `n = 3`, `base_delay = 1`, jitter
`1/2`, with every attempt failing: the third exception is re-raised and both
sleeps lie in the claimed windows. -/
theorem retry_with_backoff_spec_witness :
    ((retry_with_backoff (fun i => (Except.error (toString i) : Except String Unit))
        (fun _ => (1 : ℚ)/2) 3 1).result = some (.error "2")) ∧
    (∀ d ∈ (retry_with_backoff (fun i => (Except.error (toString i) : Except String Unit))
        (fun _ => (1 : ℚ)/2) 3 1).sleeps,
      ∃ i, i < 3 ∧ (1 : ℚ) * 2 ^ i ≤ d ∧ d < 1 * 2 ^ i + 1) := by
  have h := retry_with_backoff_spec
    (fun i => (Except.error (toString i) : Except String Unit))
    (fun _ => (1 : ℚ)/2) 1 3 (fun i => toString i)
  exact ⟨h.2.2.2 (fun i _ => rfl) (by norm_num), h.2.2.1 (fun i => by norm_num)⟩

/-- C7 (counterexample): the LLM response `[{"text": ""}]` — a well-formed
JSON array whose single tweet has empty text and no `#` token — yields a
Tweet with empty `text` and an EMPTY `hashtags` list: `generate_tweets_node`
enforces no non-empty text and substitutes no fallback hashtag pair. -/
theorem generate_tweets_no_fallback_hashtags :
    WorkflowGraph.generate_tweets_node (.ok "[\x7b\"text\": \"\"\x7d]")
        (fun r => if r = "[\x7b\"text\": \"\"\x7d]" then .arr [.textStr ""] else .decodeError)
        "T0"
        { text := some "article content",
          current_row := some { id := 2, url := .str "https://example.com/a",
                                sheet := "Sheet1" } } =
      .ok ({ text := some "article content",
             current_row := some { id := 2, url := .str "https://example.com/a",
                                   sheet := "Sheet1" },
             tweets := [{ index := 1, text := "", hashtags := [], gen_ts := "T0" }] },
           [⟨"Sheet1", 2, Col.named "generate_ts", "T0"⟩,
            ⟨"Sheet1", 2, Col.named "tweets",
              WorkflowGraph.dumpTweets
                [{ index := 1, text := "", hashtags := [], gen_ts := "T0" }]⟩]) ∧
    Tweet.text { index := 1, text := "", hashtags := [], gen_ts := "T0" } = "" ∧
    Tweet.hashtags { index := 1, text := "", hashtags := [], gen_ts := "T0" } = [] := by
  refine ⟨rfl, rfl, rfl⟩

/-- C7 (amended): whenever `generate_tweets_node` succeeds, either it left
the state's tweets untouched (guard/skip/error-record paths) or it produced
them through the formatting loop; and every Tweet the formatting loop
produces carries a text taken verbatim from the parsed LLM output (with no
non-emptiness check) and has as `hashtags` exactly the `#`-prefixed
whitespace-separated tokens of that text with the `#` removed — the empty
list, not a fallback pair, when the text contains none. -/
theorem generate_tweets_hashtags_exact :
    (∀ (llm : Except String String) (jparse : String → WorkflowGraph.JsonParse)
       (now : String) (s s' : State) (ws : List CellWrite),
      WorkflowGraph.generate_tweets_node llm jparse now s = .ok (s', ws) →
      s'.tweets = s.tweets ∨
        ∃ texts, s'.tweets = WorkflowGraph.formatTweets texts now) ∧
    (∀ (texts : List String) (now : String),
      ∀ tw ∈ WorkflowGraph.formatTweets texts now,
        tw.text ∈ texts ∧
        tw.hashtags = WorkflowGraph.extractHashtags tw.text ∧
        (tw.hashtags = [] ↔
          ∀ w ∈ WorkflowGraph.pyWords tw.text, pyStartsWith w "#" = false) ∧
        (∀ h ∈ tw.hashtags, ∃ w ∈ WorkflowGraph.pyWords tw.text,
          pyStartsWith w "#" = true ∧ h = pyDrop w 1)) := by
  constructor
  · intro llm jparse now s s' ws h
    unfold WorkflowGraph.generate_tweets_node at h
    by_cases h1 : truthyOpt s.error
    · simp only [h1, if_true] at h
      simp only [Except.ok.injEq, Prod.mk.injEq] at h
      obtain ⟨hX, -⟩ := h
      subst hX
      exact Or.inl rfl
    · simp only [h1, if_false, Bool.false_eq_true] at h
      by_cases h2 : truthyOpt s.text
      · simp only [h2, not_true, if_false, Bool.not_true] at h
        cases hcr : s.current_row with
        | none => rw [hcr] at h; simp at h
        | some cr =>
          rw [hcr] at h
          by_cases h3 : cr.sheet = "Sheet1"
          · simp only [h3, ne_eq, not_true_eq_false, if_false, Bool.not_true] at h
            cases llm with
            | error e =>
              simp only [WorkflowGraph.genError, Except.ok.injEq, Prod.mk.injEq] at h
              obtain ⟨hX, -⟩ := h
              subst hX
              exact Or.inl rfl
            | ok resp =>
              by_cases h4 : resp = ""
              · simp only [h4, if_true, WorkflowGraph.genError, Except.ok.injEq,
                  Prod.mk.injEq] at h
                obtain ⟨hX, -⟩ := h
                subst hX
                exact Or.inl rfl
              · simp only [h4, if_false] at h
                cases hjp : jparse (WorkflowGraph.stripFence resp) with
                | decodeError =>
                  rw [hjp] at h
                  simp only [Except.ok.injEq, Prod.mk.injEq] at h
                  obtain ⟨hX, -⟩ := h
                  subst hX
                  exact Or.inr ⟨_, rfl⟩
                | notList =>
                  rw [hjp] at h
                  simp only [Except.ok.injEq, Prod.mk.injEq] at h
                  obtain ⟨hX, -⟩ := h
                  subst hX
                  exact Or.inr ⟨_, rfl⟩
                | arr elems =>
                  rw [hjp] at h
                  by_cases h5 : elems.all (·.getText.isSome)
                  · simp only [h5, if_true, Except.ok.injEq, Prod.mk.injEq] at h
                    obtain ⟨hX, -⟩ := h
                    subst hX
                    exact Or.inr ⟨_, rfl⟩
                  · simp [h5, WorkflowGraph.genError] at h
                    obtain ⟨hX, -⟩ := h
                    subst hX
                    exact Or.inl rfl
          · simp only [h3, ne_eq, if_true, not_false_iff, Except.ok.injEq,
              Prod.mk.injEq] at h
            obtain ⟨hX, -⟩ := h
            subst hX
            exact Or.inl rfl
      · simp [h2] at h
        obtain ⟨hX, -⟩ := h
        subst hX
        exact Or.inl rfl
  · intro texts now tw htw
    unfold WorkflowGraph.formatTweets at htw
    rw [List.mem_map] at htw
    obtain ⟨p, hp, rfl⟩ := htw
    have hmem : p.2 ∈ texts := by
      rw [List.enum_eq_zip_range] at hp
      exact (List.of_mem_zip (by simpa using hp)).2
    refine ⟨hmem, rfl, ?_, ?_⟩
    · unfold WorkflowGraph.extractHashtags
      rw [List.filterMap_eq_nil_iff]
      constructor
      · intro hall w hw
        have := hall w hw
        by_cases hws : pyStartsWith w "#"
        · simp [hws] at this
        · simpa using hws
      · intro hall w hw
        simp [hall w hw]
    · intro h hh
      unfold WorkflowGraph.extractHashtags at hh
      rw [List.mem_filterMap] at hh
      obtain ⟨w, hw, hfw⟩ := hh
      by_cases hws : pyStartsWith w "#"
      · refine ⟨w, hw, hws, ?_⟩
        simp only [hws, if_true, Option.some.injEq] at hfw
        exact hfw.symm
      · simp [hws] at hfw

/-- Witness for C7's amended theorem: a text with one `#` token yields
exactly that hashtag, and the skip path leaves tweets untouched. -/
theorem generate_tweets_hashtags_exact_witness :
    (({ error := some "boom" } : State).tweets = ({ error := some "boom" } : State).tweets ∨
      ∃ texts, ({ error := some "boom" } : State).tweets =
        WorkflowGraph.formatTweets texts "T0") ∧
    ({ index := 1, text := "Great news about #defi today", hashtags := ["defi"],
       gen_ts := "T0" } : Tweet).hashtags =
      WorkflowGraph.extractHashtags "Great news about #defi today" ∧
    (({ index := 1, text := "no tags here", hashtags := [], gen_ts := "T0" } : Tweet).hashtags
       = [] ↔ ∀ w ∈ WorkflowGraph.pyWords "no tags here", pyStartsWith w "#" = false) := by
  refine ⟨?_, ?_, ?_⟩
  · exact (generate_tweets_hashtags_exact.1 (.ok "x") (fun _ => .notList) "T0"
      { error := some "boom" } { error := some "boom" } []
      (by simp [WorkflowGraph.generate_tweets_node, truthyOpt])).imp id id
  · exact (generate_tweets_hashtags_exact.2 ["Great news about #defi today"] "T0"
      { index := 1, text := "Great news about #defi today", hashtags := ["defi"],
        gen_ts := "T0" } (by decide)).2.1
  · have h := (generate_tweets_hashtags_exact.2 ["no tags here"] "T0"
      { index := 1, text := "no tags here", hashtags := [], gen_ts := "T0" }
      (by decide)).2.2.1
    exact h

/-- Helper: a candidate returned by `firstLong` exceeds 100 characters. -/
theorem firstLong_long :
    ∀ (l : List String) (t : String), ExtractContentTool.firstLong l = some t →
      t.length > 100 := by
  intro l
  induction l with
  | nil => intro t h; simp [ExtractContentTool.firstLong] at h
  | cons x rest ih =>
    intro t h
    rw [ExtractContentTool.firstLong] at h
    by_cases hx : x.length > 100
    · rw [if_pos hx] at h
      cases h
      exact hx
    · rw [if_neg hx] at h
      exact ih t h

/-- Helper: `firstLong` scans an append left to right. -/
theorem firstLong_append :
    ∀ (a b : List String),
      ExtractContentTool.firstLong (a ++ b) =
        (ExtractContentTool.firstLong a).orElse (fun _ => ExtractContentTool.firstLong b) := by
  intro a b
  induction a with
  | nil => simp [ExtractContentTool.firstLong]
  | cons x rest ih =>
    rw [List.cons_append, ExtractContentTool.firstLong, ExtractContentTool.firstLong]
    by_cases hx : x.length > 100
    · simp [hx]
    · simp only [hx, if_false]
      exact ih

/-- Helper: the body fallback equals `firstLong` over the body candidate. -/
theorem bodyFallback_eq (pg : ExtractContentTool.Page) :
    ExtractContentTool.bodyFallback pg =
      (ExtractContentTool.firstLong pg.body.toList).getD "" := by
  unfold ExtractContentTool.bodyFallback
  cases hb : pg.body with
  | none => simp [ExtractContentTool.firstLong]
  | some t =>
    by_cases ht : t.length > 100
    · simp [ExtractContentTool.firstLong, ht]
    · simp [ExtractContentTool.firstLong, ht]

/-- C8 (amended): `ExtractContent.extract` returns either `""` or a text
whose length strictly exceeds 100 characters, taken as the first qualifying
candidate of the sequence the code actually scans: the domain-specific
selector list when the domain is known, OTHERWISE the generic list (never
one after the other — `selectors.get(domain, default)` picks a single list),
then `main`/`#main`/`.main`, then the body minus navigation/noise. -/
theorem extract_length_and_order :
    ∀ (pg : ExtractContentTool.Page) (url : String),
      (ExtractContentTool.extract pg url = "" ∨
        (ExtractContentTool.extract pg url).length > 100) ∧
      (ExtractContentTool.is_valid_url (.str url) = true → pg.nav = true →
        ExtractContentTool.extract pg url =
          (ExtractContentTool.firstLong
            (ExtractContentTool.actualCandidates pg url)).getD "") := by
  intro pg url
  constructor
  · unfold ExtractContentTool.extract
    by_cases hv : ExtractContentTool.is_valid_url (.str url)
    · simp only [hv, not_true, if_false, Bool.not_true]
      by_cases hn : pg.nav
      · simp only [hn, not_true, if_false, Bool.not_true]
        cases hsel : ExtractContentTool.firstLong
            (((ExtractContentTool.get_site_specific_selectors url).map pg.select).flatten) with
        | some t => exact Or.inr (firstLong_long _ t hsel)
        | none =>
          cases hmc : ExtractContentTool.mainCandidate pg with
          | some t =>
            by_cases ht : t.length > 100
            · simp only [ht, if_true]
              exact Or.inr trivial
            · simp only [ht, if_false]
              rw [bodyFallback_eq]
              cases hb : ExtractContentTool.firstLong pg.body.toList with
              | none => exact Or.inl rfl
              | some u => exact Or.inr (by simpa using firstLong_long _ u hb)
          | none =>
            rw [bodyFallback_eq]
            cases hb : ExtractContentTool.firstLong pg.body.toList with
            | none => exact Or.inl rfl
            | some u => exact Or.inr (by simpa using firstLong_long _ u hb)
      · simp [hn]
    · simp [hv]
  · intro hv hn
    unfold ExtractContentTool.extract ExtractContentTool.actualCandidates
    simp only [hv, hn, not_true, if_false, Bool.not_true]
    rw [firstLong_append, firstLong_append]
    cases hsel : ExtractContentTool.firstLong
        (((ExtractContentTool.get_site_specific_selectors url).map pg.select).flatten) with
    | some t => simp [Option.orElse]
    | none =>
      simp only [Option.orElse]
      cases hmc : ExtractContentTool.mainCandidate pg with
      | some t =>
        by_cases ht : t.length > 100
        · simp [ExtractContentTool.firstLong, ht, Option.orElse]
        · simp only [ht, if_false]
          rw [bodyFallback_eq]
          simp [ExtractContentTool.firstLong, ht, Option.orElse]
      | none =>
        rw [bodyFallback_eq]
        simp [ExtractContentTool.firstLong, Option.orElse]

set_option maxRecDepth 4000 in
/-- C8 (counterexample): on a known domain (`cointelegraph.com`) the generic
selector list is never consulted.  On `cePage`, the first candidate in the
claim's stated order (domain-specific, THEN generic, then main, then body)
is the 150-character `.entry-content` article, but `extract` skips the
generic list entirely and returns the longer body text instead — so the
returned text is not the first qualifying candidate of the claimed order. -/
theorem extract_not_claimed_order :
    ExtractContentTool.extract ExtractContentTool.cePage
        "https://cointelegraph.com/news/x" = ExtractContentTool.ceBody ∧
    (ExtractContentTool.firstLong
        (ExtractContentTool.claimedCandidates ExtractContentTool.cePage
          "https://cointelegraph.com/news/x")).getD "" = ExtractContentTool.ceArticle ∧
    ExtractContentTool.ceBody ≠ ExtractContentTool.ceArticle := by
  refine ⟨rfl, rfl, by decide⟩

/-- Witness for C8's amended theorem on a concrete page whose `article`
selector holds a 120-character text. -/
theorem extract_length_and_order_witness :
    (ExtractContentTool.extract
        ⟨true, fun sel => if sel = "article"
          then [String.mk (List.replicate 120 'b')] else [], none⟩
        "https://example.com/a" = "" ∨
      (ExtractContentTool.extract
        ⟨true, fun sel => if sel = "article"
          then [String.mk (List.replicate 120 'b')] else [], none⟩
        "https://example.com/a").length > 100) ∧
    ExtractContentTool.extract
        ⟨true, fun sel => if sel = "article"
          then [String.mk (List.replicate 120 'b')] else [], none⟩
        "https://example.com/a" =
      (ExtractContentTool.firstLong (ExtractContentTool.actualCandidates
        ⟨true, fun sel => if sel = "article"
          then [String.mk (List.replicate 120 'b')] else [], none⟩
        "https://example.com/a")).getD "" := by
  have h := extract_length_and_order
    ⟨true, fun sel => if sel = "article"
      then [String.mk (List.replicate 120 'b')] else [], none⟩
    "https://example.com/a"
  exact ⟨h.1, h.2 (by decide) rfl⟩
